import Mathlib

/-!
Verification of the draco adapter runtime against its specification.

This file shallowly embeds the parts of the draco source that the
spec's claims are about:

* the generic `Value` tree (tucana's protobuf `Value`/`Kind`),
* the validator rule interpreter (`crates/validator/src/lib.rs` and
  `crates/validator/src/rules/*.rs`),
* the registry key matcher and the validation-to-execution flow
  conversion (`crates/base/src/store.rs`),
* the lifecycle select of `crates/base/src/runner.rs`, and
* the HTTP shell's matcher-result handling (`adapter/rest/src/main.rs`).

Modelling conventions: Rust `f64` numbers are modelled as exact
rationals (`Rat`); `HashMap<String, Value>` is modelled as an
association list with first-match lookup; the external `regex` crate
is modelled as a parameter (`RegexEngine`): a compile function that
may fail plus a compiled match predicate.  A Rust `panic!`/`unwrap`
failure is made explicit through the `Panics` wrapper.
-/

set_option maxRecDepth 4000

namespace Draco

/-- tucana `value::Kind`: the tagged union of the protobuf Value tree.
`NullValue` carries the protobuf enum integer, `NumberValue` is an `f64`
(modelled as `Rat`), lists hold `Value`s (i.e. optional kinds) and
structs map string keys to `Value`s. -/
inductive Kind where
  | nullValue (n : Int)
  | boolValue (b : Bool)
  | numberValue (q : Rat)
  | stringValue (s : String)
  | listValue (values : List (Option Kind))
  | structValue (fields : List (String × Option Kind))

/-- tucana `Value`: a struct with a single optional `kind` field,
modelled transparently as that option. -/
def Value := Option Kind

/-- Field access `value.kind` of the Rust struct. -/
def Value.kind (v : Value) : Option Kind := v

/-- The Rust struct literal `Value { kind }`. -/
def Value.mk (kind : Option Kind) : Value := kind

mutual

/-- Structural size of a `Kind`, used as the termination measure of the
rule interpreter (the Rust recursion descends into strictly smaller
sub-values). -/
def Kind.size : Kind → Nat
  | .nullValue _ => 1
  | .boolValue _ => 1
  | .numberValue _ => 1
  | .stringValue _ => 1
  | .listValue vs => 1 + sizeL vs
  | .structValue fs => 1 + sizeF fs

/-- Structural size of a `Value`. -/
def valueSize : Option Kind → Nat
  | none => 1
  | some k => 1 + k.size

/-- Structural size of a list of `Value`s. -/
def sizeL : List (Option Kind) → Nat
  | [] => 0
  | v :: t => valueSize v + 1 + sizeL t

/-- Structural size of a struct's field list. -/
def sizeF : List (String × Option Kind) → Nat
  | [] => 0
  | (_, v) :: t => valueSize v + 1 + sizeF t

end

mutual

/-- Structural equality on `Kind`, the model of Rust's derived
`PartialEq` on tucana's `Value` tree. -/
def Kind.beq : Kind → Kind → Bool
  | .nullValue a, .nullValue b => a == b
  | .boolValue a, .boolValue b => a == b
  | .numberValue a, .numberValue b => a == b
  | .stringValue a, .stringValue b => a == b
  | .listValue a, .listValue b => beqL a b
  | .structValue a, .structValue b => beqF a b
  | _, _ => false

/-- Structural equality on `Value`. -/
def beqV : Option Kind → Option Kind → Bool
  | none, none => true
  | some a, some b => Kind.beq a b
  | _, _ => false

/-- Structural equality on lists of `Value`s. -/
def beqL : List (Option Kind) → List (Option Kind) → Bool
  | [], [] => true
  | a :: as', b :: bs' => beqV a b && beqL as' bs'
  | _, _ => false

/-- Structural equality on struct field lists. -/
def beqF : List (String × Option Kind) → List (String × Option Kind) → Bool
  | [], [] => true
  | (ka, a) :: as', (kb, b) :: bs' => ka == kb && beqV a b && beqF as' bs'
  | _, _ => false

end

/-- Rust's `str::split('.')`, on the underlying character list: every
dot starts a new (possibly empty) segment, and the empty string yields
the single segment `""`.  (Lean's own `String.splitOn` is equivalent
but is not kernel-reducible, so the split is modelled directly.) -/
def splitDotAux : List Char → List String
  | [] => [""]
  | c :: rest =>
    match splitDotAux rest with
    | [] => [""]
    | seg :: tl => if c = '.' then "" :: seg :: tl else (c.toString ++ seg) :: tl

/-- Rust's `pattern.split(".")` / `key.split(".")`. -/
def splitDot (s : String) : List String := splitDotAux s.data

/-- `HashMap::get` on a struct's field map, modelled as first-match
lookup in the association list. -/
def findField (fields : List (String × Option Kind)) (key : String) : Option Value :=
  match fields with
  | [] => none
  | (k, v) :: t => if k = key then some v else findField t key

/-- `tucana::shared::helper::path::expect_kind` (the dotted-path
descent of `draco_validator/src/path/mod.rs`), on the already-split
path segments.  The Rust function re-joins and re-splits the remaining
segments on each recursive call, which is the identity on segment
lists produced by a split; the recursion is modelled directly on the
segment list. -/
def expectKindSegs (segs : List String) (v : Value) : Option Kind :=
  match v.kind with
  | none => none
  | some kind =>
    match segs with
    | [] => none
    | first :: rest =>
      match kind with
      | .structValue fields =>
        match findField fields first with
        | some value =>
          if rest.isEmpty then value.kind
          else expectKindSegs rest value
        | none => none
      | _ => none

/-- `expect_kind(path, value)`: split the dotted path, then descend. -/
def expect_kind (path : String) (v : Value) : Option Kind :=
  expectKindSegs (splitDot path) v

theorem findField_size {fields : List (String × Option Kind)} {key : String} {v : Value}
    (h : findField fields key = some v) : valueSize v + 1 ≤ sizeF fields := by
  induction fields with
  | nil => simp [findField] at h
  | cons p t ih =>
    obtain ⟨k, w⟩ := p
    by_cases hk : k = key
    · simp [findField, hk] at h
      subst h
      simp [sizeF]
    · simp [findField, hk] at h
      have := ih h
      simp [sizeF]
      omega

theorem kind_size_pos (k : Kind) : 1 ≤ k.size := by
  cases k <;> simp [Kind.size]

theorem valueSize_pos (v : Value) : 1 ≤ valueSize v := by
  cases v <;> simp [valueSize]

theorem expectKindSegs_size {segs : List String} {v : Value} {k : Kind}
    (h : expectKindSegs segs v = some k) : k.size + 2 ≤ valueSize v := by
  induction segs generalizing v with
  | nil =>
    cases hv : v.kind with
    | none => rw [expectKindSegs, hv] at h; simp at h
    | some kv => rw [expectKindSegs, hv] at h; simp at h
  | cons first rest ih =>
    cases hv : v.kind with
    | none => rw [expectKindSegs, hv] at h; simp at h
    | some kv =>
      rw [expectKindSegs, hv] at h
      cases kv with
      | structValue fields =>
        simp only at h
        cases hf : findField fields first with
        | none => rw [hf] at h; simp at h
        | some value =>
          rw [hf] at h
          have hfs := findField_size hf
          have hvk : valueSize v = 1 + (1 + sizeF fields) := by
            have : v = Value.mk (some (.structValue fields)) := hv
            rw [this]
            rfl
          by_cases hr : rest.isEmpty
          · simp [hr] at h
            have : valueSize value = 1 + k.size := by
              have : value = Value.mk (some k) := h
              rw [this]; rfl
            omega
          · simp [hr] at h
            have := ih h
            omega
      | nullValue n => simp at h
      | boolValue b => simp at h
      | numberValue q => simp at h
      | stringValue s => simp at h
      | listValue vs => simp at h

/-- The closed set of rule violations
(`crates/validator/src/rules/violation.rs`; the
`DataTypeIdentifierNotPresent` and `GenericKeyNotAllowed` variants are
the ones produced by `contains_key.rs`/`contains_type.rs`).  Each
variant's field mirrors the corresponding Rust violation struct. -/
inductive DataTypeRuleViolation where
  | missingDataType (missing_type : String)
  | containsKey (missing_key : String)
  | regex (missing_regex : String)
  | regexTypeNotAccepted (type_not_accepted : String)
  | dataTypeNotFound (data_type : String)
  | numberInRange (key : String)
  | itemOfCollection (collection_name : String)
  | invalidFormat (expected_format : String) (value : String)
  | dataTypeIdentifierNotPresent (identifier : String)
  | genericKeyNotAllowed (key : String)
  deriving DecidableEq

/-- `DataTypeRuleError`: the accumulated violation report. -/
structure DataTypeRuleError where
  violations : List DataTypeRuleViolation
  deriving DecidableEq

/-- `Result<(), DataTypeRuleError>` of the Rust rule functions. -/
abbrev RuleResult := Except DataTypeRuleError Unit

/-- Explicit marker for a Rust `panic!` (or `.unwrap()` on an error):
the computation either panics or returns a value. -/
inductive Panics (α : Type) where
  | panicked
  | ret (a : α)
  deriving DecidableEq

/-- `DataTypeRegexRuleConfig`. -/
structure DataTypeRegexRuleConfig where
  pattern : String
  deriving DecidableEq

/-- `DataTypeNumberRangeRuleConfig` (`from`/`to`/`steps` are integer
fields in the wire format; `steps` is optional). -/
structure DataTypeNumberRangeRuleConfig where
  «from» : Int
  «to» : Int
  steps : Option Int
  deriving DecidableEq

/-- `DataTypeItemOfCollectionRuleConfig`. -/
structure DataTypeItemOfCollectionRuleConfig where
  items : List Value

/-- `data_type_identifier::Type`: a concrete data-type identifier or a
generic-parameter reference (any non-concrete variant is handled by the
same wildcard arm in the source, so one stand-in variant suffices). -/
inductive DataTypeIdentifierType where
  | dataTypeIdentifier (id : String)
  | genericType
  deriving DecidableEq

/-- `DataTypeIdentifier` message: an optional `type` payload. -/
structure DataTypeIdentifierMsg where
  type : Option DataTypeIdentifierType
  deriving DecidableEq

/-- `DataTypeContainsTypeRuleConfig`. -/
structure DataTypeContainsTypeRuleConfig where
  data_type_identifier : Option DataTypeIdentifierMsg
  deriving DecidableEq

/-- `DataTypeContainsKeyRuleConfig`. -/
structure DataTypeContainsKeyRuleConfig where
  data_type_identifier : Option DataTypeIdentifierMsg
  deriving DecidableEq

/-- `execution_data_type_rule::Config`: the five rule configurations. -/
inductive Config where
  | numberRange (c : DataTypeNumberRangeRuleConfig)
  | itemOfCollection (c : DataTypeItemOfCollectionRuleConfig)
  | containsType (c : DataTypeContainsTypeRuleConfig)
  | regex (c : DataTypeRegexRuleConfig)
  | containsKey (c : DataTypeContainsKeyRuleConfig)

/-- `ExecutionDataTypeRule`: a rule with an optional configuration. -/
structure ExecutionDataTypeRule where
  config : Option Config

/-- `ExecutionDataType`: an identifier plus its rules (only the fields
the validator reads are modelled). -/
structure ExecutionDataType where
  identifier : String
  rules : List ExecutionDataTypeRule

/-- `get_data_type_by_id` (`crates/validator/src/lib.rs`). -/
def get_data_type_by_id (data_types : List ExecutionDataType) (identifier : String) :
    Option ExecutionDataType :=
  data_types.find? (fun data_type => data_type.identifier == identifier)

/-- The external `regex` crate, abstracted: `compile` either fails
(`Regex::new` returned `Err`) or yields the compiled matcher's
`is_match` predicate. -/
structure RegexEngine where
  compile : String → Option (String → Bool)

/-- Truncation toward zero, as Rust's `f64` division-based remainder
uses. -/
def ratTrunc (q : Rat) : Int := if 0 ≤ q then ⌊q⌋ else ⌈q⌉

/-- The Rust `%` operator on `f64` (fmod): remainder of truncating
division, modelled on exact rationals. -/
def fmod (a b : Rat) : Rat := a - b * (ratTrunc (a / b) : Rat)

/-- Modelled stand-in for Rust's `derive(Debug)` rendering of a `Kind`
(used only inside violation messages); the payload is elided.  No claim
depends on the rendered text. -/
def kindDebug : Kind → String
  | .nullValue _ => "NullValue"
  | .boolValue _ => "BoolValue"
  | .numberValue _ => "NumberValue"
  | .stringValue _ => "StringValue"
  | .listValue _ => "ListValue"
  | .structValue _ => "StructValue"

/-- Modelled stand-in for Rust's `f64` `Display`; the exact decimal
rendering of floats is external to this development and no claim
depends on it. -/
def f64ToString (q : Rat) : String := toString q

/-- `apply_number_range` (`crates/validator/src/rules/number_range.rs`):
absent kind is accepted; a non-number is rejected with
`RegexTypeNotAccepted`; then the value must lie in `[from, to]` and,
when `steps` is present and nonzero, `value % steps` must be `0`. -/
def apply_number_range (rule : DataTypeNumberRangeRuleConfig) (body : Value) (key : String) :
    RuleResult :=
  match body.kind with
  | none => .ok ()
  | some kind =>
    match kind with
    | .numberValue n =>
      if n < (rule.«from» : Rat) ∨ n > (rule.«to» : Rat) then
        .error ⟨[.numberInRange key]⟩
      else
        match rule.steps with
        | some modulo =>
          if modulo = 0 then .ok ()
          else if fmod n (modulo : Rat) ≠ 0 then .error ⟨[.numberInRange key]⟩
          else .ok ()
        | none => .ok ()
    | _ => .error ⟨[.regexTypeNotAccepted (kindDebug kind)]⟩

/-- `Vec::contains` of the rule's `items` (Rust `PartialEq` on
`Value`). -/
def listContainsValue (items : List Value) (v : Value) : Bool :=
  match items with
  | [] => false
  | x :: t => beqV x v || listContainsValue t v

/-- `apply_item_of_collection`
(`crates/validator/src/rules/item_of_collection.rs`): the value must be
structurally equal to one of the collection's items. -/
def apply_item_of_collection (rule : DataTypeItemOfCollectionRuleConfig) (body : Value)
    (key : String) : RuleResult :=
  if !(listContainsValue rule.items body) then
    .error ⟨[.itemOfCollection key]⟩
  else
    .ok ()

/-- The stringification match of `apply_regex`
(`crates/validator/src/rules/regex.rs` lines 27-50): scalars are
rendered to text, containers are rejected with
`RegexTypeNotAccepted`. -/
def stringifyKind (kind : Kind) : Except DataTypeRuleError String :=
  match kind with
  | .boolValue b => .ok (toString b)
  | .numberValue n => .ok (f64ToString n)
  | .stringValue s => .ok s
  | .nullValue _ => .ok "null"
  | .structValue _ => .error ⟨[.regexTypeNotAccepted (kindDebug kind)]⟩
  | .listValue _ => .error ⟨[.regexTypeNotAccepted (kindDebug kind)]⟩

/-- `apply_regex` (`crates/validator/src/rules/regex.rs`): an absent
kind is accepted; the stringified value must match the compiled
pattern.  `Regex::new(pattern).unwrap()` panics when the pattern does
not compile, which the model makes explicit as `Panics.panicked`. -/
def apply_regex (E : RegexEngine) (rule : DataTypeRegexRuleConfig) (body : Value) :
    Panics RuleResult :=
  match body.kind with
  | none => .ret (.ok ())
  | some kind =>
    match stringifyKind kind with
    | .error e => .ret (.error e)
    | .ok result =>
      match E.compile rule.pattern with
      | none => .panicked
      | some compiled =>
        if !(compiled result) then .ret (.error ⟨[.regex rule.pattern]⟩)
        else .ret (.ok ())

mutual

/-- `verify_data_type_rules` (`crates/validator/src/lib.rs` lines
42-108): evaluate every configured rule on the body, accumulating
violations across rules; `Ok` exactly when no violation was
collected. -/
def verify_data_type_rules (E : RegexEngine) (body : Value) (data_type : ExecutionDataType)
    (available_data_types : List ExecutionDataType) : Panics RuleResult :=
  match applyRules E data_type.rules body available_data_types with
  | .panicked => .panicked
  | .ret violations =>
    if violations.isEmpty then .ret (.ok ()) else .ret (.error ⟨violations⟩)
termination_by (valueSize body, 3, 0)

/-- The `for rule in data_type.rules` loop of `verify_data_type_rules`:
rules without a config are skipped (`continue`); a failing rule's
violations are appended (`violations.extend`) and evaluation continues
with the remaining rules. -/
def applyRules (E : RegexEngine) (rules : List ExecutionDataTypeRule) (body : Value)
    (available_data_types : List ExecutionDataType) : Panics (List DataTypeRuleViolation) :=
  match rules with
  | [] => .ret []
  | rule :: rest =>
    match rule.config with
    | none => applyRules E rest body available_data_types
    | some rule_config =>
      match applyRuleConfig E rule_config body available_data_types with
      | .panicked => .panicked
      | .ret (.ok _) => applyRules E rest body available_data_types
      | .ret (.error violation) =>
        match applyRules E rest body available_data_types with
        | .panicked => .panicked
        | .ret vs => .ret (violation.violations ++ vs)
termination_by (valueSize body, 2, rules.length)

/-- The `match rule_config` dispatch inside the rule loop of
`verify_data_type_rules`. -/
def applyRuleConfig (E : RegexEngine) (rule_config : Config) (body : Value)
    (available_data_types : List ExecutionDataType) : Panics RuleResult :=
  match rule_config with
  | .numberRange config => .ret (apply_number_range config body "value")
  | .itemOfCollection config => .ret (apply_item_of_collection config body "key")
  | .containsType config => apply_contains_type E config available_data_types body
  | .regex config => apply_regex E config body
  | .containsKey config => apply_contains_key E config body available_data_types
termination_by (valueSize body, 1, 0)

/-- `apply_contains_key` (`crates/validator/src/rules/contains_key.rs`):
resolve the rule's identifier, require a struct body, look the
identifier up as a dotted path inside the body, then validate the found
sub-value against the referenced data type. -/
def apply_contains_key (E : RegexEngine) (rule : DataTypeContainsKeyRuleConfig) (body : Value)
    (available_data_types : List ExecutionDataType) : Panics RuleResult :=
  match rule.data_type_identifier with
  | some optional_data_type =>
    match optional_data_type.type with
    | some (.dataTypeIdentifier identifier) =>
      match body.kind with
      | some (.structValue _) =>
        match _h : expect_kind identifier body with
        | some k =>
          match get_data_type_by_id available_data_types identifier with
          | some data_type =>
            verify_data_type_rules E (Value.mk (some k)) data_type available_data_types
          | none => .ret (.error ⟨[.missingDataType identifier]⟩)
        | none => .ret (.error ⟨[.containsKey identifier]⟩)
      | _ => .ret (.error ⟨[.containsKey identifier]⟩)
    | some _ => .ret (.error ⟨[.genericKeyNotAllowed "identifier"]⟩)
    | none => .ret (.error ⟨[.dataTypeIdentifierNotPresent "identifier"]⟩)
  | none => .ret (.error ⟨[.dataTypeIdentifierNotPresent "identifier"]⟩)
termination_by (valueSize body, 0, 0)
decreasing_by
  have hs := expectKindSegs_size _h
  have hk : valueSize (Value.mk (some k)) = 1 + k.size := rfl
  decreasing_tactic

/-- `apply_contains_type` (`crates/validator/src/rules/contains_type.rs`):
resolve the rule's identifier, require a list body, then validate each
element against the referenced data type; when the referenced type is
not in the universe the arm falls through to the final `Ok(())`. -/
def apply_contains_type (E : RegexEngine) (rule : DataTypeContainsTypeRuleConfig)
    (available_data_types : List ExecutionDataType) (body : Value) : Panics RuleResult :=
  match rule.data_type_identifier with
  | some optional_data_type =>
    match optional_data_type.type with
    | some (.dataTypeIdentifier identifier) =>
      match _hb : body.kind with
      | none => .ret (.error ⟨[.invalidFormat identifier "other"]⟩)
      | some real_body =>
        match real_body with
        | .listValue list =>
          match get_data_type_by_id available_data_types identifier with
          | some data_type =>
            match verifyListLoop E list data_type available_data_types with
            | .panicked => .panicked
            | .ret none => .ret (.ok ())
            | .ret (some errors) => .ret (.error errors)
          | none => .ret (.ok ())
        | _ => .ret (.error ⟨[.invalidFormat identifier "other"]⟩)
    | some _ => .ret (.error ⟨[.genericKeyNotAllowed "identifier"]⟩)
    | none => .ret (.error ⟨[.dataTypeIdentifierNotPresent "identifier"]⟩)
  | none => .ret (.error ⟨[.dataTypeIdentifierNotPresent "identifier"]⟩)
termination_by (valueSize body, 0, 0)
decreasing_by
  have hb : valueSize body = 1 + (1 + sizeL list) := by
    have hb' : body = Value.mk (some (.listValue list)) := _hb
    rw [hb']; rfl
  decreasing_tactic

/-- The `for value in list.values` loop of `apply_contains_type`: each
element is validated, and the mutable `rule_errors` slot is overwritten
on each failure, so the last failing element's report survives. -/
def verifyListLoop (E : RegexEngine) (values : List (Option Kind))
    (data_type : ExecutionDataType) (available_data_types : List ExecutionDataType) :
    Panics (Option DataTypeRuleError) :=
  match values with
  | [] => .ret none
  | v :: rest =>
    match verify_data_type_rules E v data_type available_data_types with
    | .panicked => .panicked
    | .ret r =>
      match verifyListLoop E rest data_type available_data_types with
      | .panicked => .panicked
      | .ret later =>
        match r with
        | .ok _ => .ret later
        | .error e =>
          match later with
          | none => .ret (some e)
          | some e2 => .ret (some e2)
termination_by (sizeL values + 1, 0, 0)
decreasing_by
  · have hl : sizeL (v :: t) = valueSize v + 1 + sizeL t := rfl
    decreasing_tactic
  · have hl : sizeL (v :: t) = valueSize v + 1 + sizeL t := rfl
    decreasing_tactic

end

/-- tucana `NodeFunction` (an external message type); only its identity
matters to the modelled code, so its payload is abstracted to the
definition's function id. -/
structure NodeFunction where
  function_id : String
  deriving DecidableEq

/-- tucana `ValidationFlow`, restricted to the fields the modelled code
reads: the flow id, the starting node, the node functions, the optional
input type and the data-type universe. -/
structure ValidationFlow where
  flow_id : Int
  starting_node : Option NodeFunction
  node_functions : List NodeFunction
  input_type_identifier : Option String
  data_types : List ExecutionDataType

/-- tucana `ExecutionFlow`: the message
`AdapterStore::convert_validation_flow` constructs — exactly the three
fields the Rust struct literal fills (`crates/base/src/store.rs` lines
148-154). -/
structure ExecutionFlow where
  flow_id : Int
  starting_node : Option NodeFunction
  input_value : Option Value

/-- `AdapterStore::convert_validation_flow` (`crates/base/src/store.rs`
lines 148-154). -/
def convert_validation_flow (flow : ValidationFlow) (input_value : Option Value) :
    ExecutionFlow :=
  { flow_id := flow.flow_id
    starting_node := flow.starting_node
    input_value := input_value }

/-- `verify_flow` (`crates/validator/src/lib.rs` lines 15-39): no
declared input type accepts any body; an undeclared root type is a
`DataTypeNotFound` report; otherwise the root data type's rules are
evaluated. -/
def verify_flow (E : RegexEngine) (flow : ValidationFlow) (body : Value) : Panics RuleResult :=
  match flow.input_type_identifier with
  | none => .ret (.ok ())
  | some input_type =>
    match flow.data_types.find? (fun dt => dt.identifier == input_type) with
    | some data_type => verify_data_type_rules E body data_type flow.data_types
    | none => .ret (.error ⟨[.dataTypeNotFound input_type]⟩)

/-- `AdapterStore::is_matching_key` (`crates/base/src/store.rs` lines
156-174): split pattern and key on dots, zip the segment lists (the zip
stops at the shorter list), and fail only when a compared pattern
segment is neither `*` nor equal to the key segment. -/
def is_matching_key (pattern key : String) : Bool :=
  let splitted_pattern := splitDot pattern
  let splitted_key := splitDot key
  let zipped := splitted_pattern.zip splitted_key
  zipped.all (fun pk => pk.1 == "*" || pk.1 == pk.2)

/-- The outcomes the `tokio::select!` of `ServerRunner::serve`
(`crates/base/src/runner.rs` lines 112-160) can complete with: the
adapter's `run` future returning on its own, the spawned health task
ending, Ctrl+C, or SIGTERM. -/
inductive ServeTrigger where
  | runFinished
  | healthEnded
  | ctrlC
  | sigterm
  deriving DecidableEq

/-- Whether a select arm exists in the given configuration: the
`healthEnded` arm exists only when a health task was spawned
(`config.with_health_service`). -/
def triggerPossible (health_task : Bool) : ServeTrigger → Bool
  | .healthEnded => health_task
  | _ => true

/-- The number of `server.shutdown(&context)` invocations performed by
the winning select arm of `ServerRunner::serve`: the three shutdown
triggers call it once; the arm for `run` finishing on its own only
aborts the health task and propagates the result. -/
def shutdown_invocations (health_task : Bool) (t : ServeTrigger) : Nat :=
  match health_task, t with
  | true, .runFinished => 0
  | true, .healthEnded => 1
  | true, .ctrlC => 1
  | true, .sigterm => 1
  | false, .runFinished => 0
  | false, .healthEnded => 0
  | false, .ctrlC => 1
  | false, .sigterm => 1

/-- `FlowIdentifyResult` (`crates/base/src/store.rs`): the matcher's
three-way outcome. -/
inductive FlowIdentifyResult where
  | noMatch
  | single (flow : ValidationFlow)
  | multiple (flows : List ValidationFlow)

/-- `hyper::StatusCode::NOT_FOUND`. -/
def statusNotFound : Nat := 404

/-- `hyper::StatusCode::INTERNAL_SERVER_ERROR`. -/
def statusInternalServerError : Nat := 500

/-- The response-status selection of `handle_request`
(`adapter/rest/src/main.rs` lines 254-259): a `Single` match goes on to
execute the flow (producing whatever status the execution path yields,
passed here as `exec_status`); every other matcher outcome is answered
by `json_error(StatusCode::NOT_FOUND, ..)`. -/
def handle_request_status (result : FlowIdentifyResult) (exec_status : Nat) : Nat :=
  match result with
  | .single _ => exec_status
  | _ => statusNotFound


/-- The pattern-key match rule as the spec words it: segment counts
must be equal, or the pattern must be no longer than the key and end in
a trailing `*` covering the rest; additionally every zipped non-wildcard
pattern segment must equal the key segment. -/
def spec_is_matching_key (pattern key : String) : Bool :=
  let ps := splitDot pattern
  let ks := splitDot key
  (ps.length == ks.length ||
      (decide (ps.length ≤ ks.length) && ps.getLast? == some "*")) &&
    (ps.zip ks).all fun pk => pk.1 == "*" || pk.1 == pk.2

theorem zip_all_iff (ps ks : List String) :
    ((ps.zip ks).all fun pk => pk.1 == "*" || pk.1 == pk.2) = true ↔
      ∀ i, i < min ps.length ks.length →
        (ps.getD i "" = "*" ∨ ps.getD i "" = ks.getD i "") := by
  induction ps generalizing ks with
  | nil => simp
  | cons p pt ih =>
    cases ks with
    | nil => simp
    | cons q qt =>
      rw [List.zip_cons_cons, List.all_cons, Bool.and_eq_true, ih qt]
      constructor
      · rintro ⟨h0, hrest⟩ i hi
        cases i with
        | zero =>
          simp only [List.getD_cons_zero]
          simpa using h0
        | succ j =>
          simp only [List.getD_cons_succ]
          refine hrest j ?_
          simp only [List.length_cons] at hi
          omega
      · intro h
        refine ⟨?_, fun j hj => ?_⟩
        · have h0 := h 0 (by simp only [List.length_cons]; omega)
          simpa using h0
        · have hs := h (j + 1) (by simp only [List.length_cons]; omega)
          simpa using hs

/-- C1 counterexample: the claim asserts that a pattern with fewer
segments than the key and no trailing `*` does not match — concretely
that `"A.B"` does not match `"A.B.C"`.  The code's zip-based matcher
accepts it (the spec-worded rule rejects it). -/
theorem c1_counterexample :
    is_matching_key "A.B" "A.B.C" = true ∧
      spec_is_matching_key "A.B" "A.B.C" = false := by
  exact ⟨by decide, by decide⟩

/-- C1 (amended): `is_matching_key` compares only the zipped common
prefix of the dot-split pattern and key — it returns true exactly when
every compared pattern segment is `*` or equals the key segment at the
same position, ignoring any length difference in either direction; in
particular every spec-worded match is accepted. -/
theorem is_matching_key_zip_semantics (pattern key : String) :
    (spec_is_matching_key pattern key = true → is_matching_key pattern key = true) ∧
      (is_matching_key pattern key = true ↔
        ∀ i, i < min (splitDot pattern).length (splitDot key).length →
          ((splitDot pattern).getD i "" = "*" ∨
            (splitDot pattern).getD i "" = (splitDot key).getD i "")) := by
  constructor
  · intro h
    rw [spec_is_matching_key, Bool.and_eq_true] at h
    rw [is_matching_key]
    exact h.2
  · rw [is_matching_key]
    exact zip_all_iff (splitDot pattern) (splitDot key)

/-- C1 witness: the amended theorem applied to the spec's own positive
example `match("A.*.C", "A.X.C")`. -/
theorem is_matching_key_zip_semantics_witness : is_matching_key "A.*.C" "A.X.C" = true :=
  (is_matching_key_zip_semantics "A.*.C" "A.X.C").1 (by decide)

/-- C2 counterexample: with a health task spawned and the adapter `run`
future finishing on its own (a completed run), `serve` performs zero
`shutdown` invocations, not exactly one. -/
theorem serve_run_finished_no_shutdown :
    triggerPossible true ServeTrigger.runFinished = true ∧
      shutdown_invocations true ServeTrigger.runFinished = 0 ∧
      shutdown_invocations true ServeTrigger.runFinished ≠ 1 := by
  exact ⟨rfl, rfl, by decide⟩

/-- C2 (amended): for every completed run, `shutdown` is invoked
exactly once when a shutdown trigger (health task ending, Ctrl+C,
SIGTERM) wins the select, and zero times when the adapter's `run`
future returns on its own. -/
theorem serve_shutdown_count (health_task : Bool) (t : ServeTrigger)
    (hp : triggerPossible health_task t = true) :
    shutdown_invocations health_task t =
      if t = ServeTrigger.runFinished then 0 else 1 := by
  cases health_task <;> cases t <;> simp_all [triggerPossible, shutdown_invocations]

/-- C2 witness: the amended theorem at the Ctrl+C trigger with a health
task. -/
theorem serve_shutdown_count_witness :
    triggerPossible true ServeTrigger.ctrlC = true ∧
      shutdown_invocations true ServeTrigger.ctrlC =
        if ServeTrigger.ctrlC = ServeTrigger.runFinished then 0 else 1 :=
  ⟨by decide, serve_shutdown_count true ServeTrigger.ctrlC (by decide)⟩

/-- A flow with one node function, for the conversion counterexample. -/
def flowWithNode : ValidationFlow :=
  { flow_id := 1
    starting_node := none
    node_functions := [⟨"std::math::add"⟩]
    input_type_identifier := none
    data_types := [] }

/-- The same flow with its `node_functions` emptied. -/
def flowWithoutNode : ValidationFlow :=
  { flowWithNode with node_functions := [] }

/-- C3 counterexample: two validation flows that differ in their
`node_functions` convert to the same `ExecutionFlow` — the emitted
message cannot contain the flow's `node_functions` list, because the
Rust `ExecutionFlow` literal only fills `flow_id`, `starting_node` and
`input_value`. -/
theorem convert_drops_node_functions :
    flowWithNode.node_functions ≠ flowWithoutNode.node_functions ∧
      convert_validation_flow flowWithNode none =
        convert_validation_flow flowWithoutNode none := by
  exact ⟨by decide, rfl⟩

/-- C3 (amended): the `ExecutionFlow` built by
`convert_validation_flow` carries the flow's `flow_id`, its
`starting_node` and the input value, and nothing else: any two flows
agreeing on `flow_id` and `starting_node` convert identically,
regardless of their `node_functions`, settings or data types. -/
theorem convert_validation_flow_spec (f g : ValidationFlow) (input_value : Option Value)
    (hid : f.flow_id = g.flow_id) (hsn : f.starting_node = g.starting_node) :
    (convert_validation_flow f input_value).flow_id = f.flow_id ∧
      (convert_validation_flow f input_value).starting_node = f.starting_node ∧
      (convert_validation_flow f input_value).input_value = input_value ∧
      convert_validation_flow f input_value = convert_validation_flow g input_value := by
  refine ⟨rfl, rfl, rfl, ?_⟩
  simp [convert_validation_flow, hid, hsn]

/-- C3 witness: the amended theorem at the two concrete flows of the
counterexample. -/
theorem convert_validation_flow_spec_witness :
    (convert_validation_flow flowWithNode none).flow_id = flowWithNode.flow_id ∧
      (convert_validation_flow flowWithNode none).starting_node = flowWithNode.starting_node ∧
      (convert_validation_flow flowWithNode none).input_value = none ∧
      convert_validation_flow flowWithNode none = convert_validation_flow flowWithoutNode none :=
  convert_validation_flow_spec flowWithNode flowWithoutNode none rfl rfl

/-- C6 counterexample: a `Multiple` matcher outcome is answered with
404, not 500 — even when the execution path would have produced some
other status. -/
theorem handle_request_multiple_is_404 :
    handle_request_status (.multiple [flowWithNode, flowWithoutNode]) 200 = statusNotFound ∧
      handle_request_status (.multiple [flowWithNode, flowWithoutNode]) 200 ≠
        statusInternalServerError := by
  exact ⟨rfl, by decide⟩

/-- C6 (amended): `handle_request` answers 404 both when the matcher
returns no flow and when it returns multiple flows; only a `Single`
match reaches the execution path. -/
theorem handle_request_status_spec (flows : List ValidationFlow) (flow : ValidationFlow)
    (exec_status : Nat) :
    handle_request_status .noMatch exec_status = statusNotFound ∧
      handle_request_status (.multiple flows) exec_status = statusNotFound ∧
      handle_request_status (.single flow) exec_status = exec_status :=
  ⟨rfl, rfl, rfl⟩

/-- C9: a `Value` whose `kind` field is absent vacuously satisfies
every Regex rule and every NumberRange rule — both `apply_regex` and
`apply_number_range` return `Ok` on it before looking at the pattern or
the range. -/
theorem kindless_value_accepted (E : RegexEngine) (r1 : DataTypeRegexRuleConfig)
    (r2 : DataTypeNumberRangeRuleConfig) (key : String) :
    apply_regex E r1 (Value.mk none) = .ret (.ok ()) ∧
      apply_number_range r2 (Value.mk none) key = .ok () :=
  ⟨rfl, rfl⟩

theorem ratTrunc_intCast (m : Int) : ratTrunc (m : Rat) = m := by
  rw [ratTrunc]
  split
  · exact Int.floor_intCast m
  · exact Int.ceil_intCast m

theorem fmod_eq_zero_iff (v s : Rat) (hs : s ≠ 0) :
    fmod v s = 0 ↔ ∃ m : Int, v = (m : Rat) * s := by
  rw [fmod]
  constructor
  · intro h
    have hc := mul_comm ((ratTrunc (v / s) : Int) : Rat) s
    exact ⟨ratTrunc (v / s), by linarith⟩
  · rintro ⟨m, rfl⟩
    have hd : (m : Rat) * s / s = (m : Rat) := by field_simp
    rw [hd, ratTrunc_intCast]
    ring

/-- Whether a `Kind` is a `NumberValue`. -/
def Kind.isNumber : Kind → Bool
  | .numberValue _ => true
  | _ => false

/-- C7: `apply_number_range` accepts a numeric value exactly when it
lies in `[from, to]` (bounds inclusive) and, when `steps` is present and
nonzero, the value is an integer multiple of `steps`; `steps = 0`
disables the step check; and any non-numeric kind is rejected with a
`RegexTypeNotAccepted` violation. -/
theorem number_range_spec (rule : DataTypeNumberRangeRuleConfig) (key : String) (v : Rat)
    (k : Kind) (hk : k.isNumber = false) :
    (apply_number_range rule (Value.mk (some (.numberValue v))) key = .ok () ↔
      ((rule.«from» : Rat) ≤ v ∧ v ≤ (rule.«to» : Rat) ∧
        ∀ s, rule.steps = some s → s ≠ 0 → ∃ m : Int, v = (m : Rat) * (s : Rat))) ∧
    ∃ msg, apply_number_range rule (Value.mk (some k)) key =
      .error ⟨[.regexTypeNotAccepted msg]⟩ := by
  constructor
  · obtain ⟨f0, t0, steps0⟩ := rule
    cases steps0 with
    | none =>
      have harm : apply_number_range ⟨f0, t0, none⟩ (Value.mk (some (.numberValue v))) key =
          (if v < (f0 : Rat) ∨ v > (t0 : Rat) then
            Except.error ⟨[.numberInRange key]⟩
          else .ok ()) := rfl
      rw [harm]
      split_ifs with h1
      · constructor
        · intro h
          exact absurd h (by simp)
        · rintro ⟨hf, ht, -⟩
          rcases h1 with h1 | h1 <;> linarith
      · have hf : (f0 : Rat) ≤ v := not_lt.mp (not_or.mp h1).1
        have ht : v ≤ (t0 : Rat) := not_lt.mp (not_or.mp h1).2
        constructor
        · intro _
          exact ⟨hf, ht, fun s hs => by cases hs⟩
        · intro _
          rfl
    | some st =>
      by_cases h0 : st = 0
      · subst h0
        have harm : apply_number_range ⟨f0, t0, some 0⟩ (Value.mk (some (.numberValue v))) key =
            (if v < (f0 : Rat) ∨ v > (t0 : Rat) then
              Except.error ⟨[.numberInRange key]⟩
            else .ok ()) := rfl
        rw [harm]
        split_ifs with h1
        · constructor
          · intro h
            exact absurd h (by simp)
          · rintro ⟨hf, ht, -⟩
            rcases h1 with h1 | h1 <;> linarith
        · have hf : (f0 : Rat) ≤ v := not_lt.mp (not_or.mp h1).1
          have ht : v ≤ (t0 : Rat) := not_lt.mp (not_or.mp h1).2
          constructor
          · intro _
            refine ⟨hf, ht, fun s hs hsne => ?_⟩
            injection hs with hse
            exact absurd hse.symm hsne
          · intro _
            rfl
      · have harm : apply_number_range ⟨f0, t0, some st⟩ (Value.mk (some (.numberValue v))) key =
            (if v < (f0 : Rat) ∨ v > (t0 : Rat) then
              Except.error ⟨[.numberInRange key]⟩
            else if st = 0 then .ok ()
            else if fmod v (st : Rat) ≠ 0 then Except.error ⟨[.numberInRange key]⟩
            else .ok ()) := rfl
        rw [harm, if_neg h0]
        have hcast : (st : Rat) ≠ 0 := Int.cast_ne_zero.mpr h0
        split_ifs with h1 hm
        · constructor
          · intro h
            exact absurd h (by simp)
          · rintro ⟨hf, ht, -⟩
            rcases h1 with h1 | h1 <;> linarith
        · have hf : (f0 : Rat) ≤ v := not_lt.mp (not_or.mp h1).1
          have ht : v ≤ (t0 : Rat) := not_lt.mp (not_or.mp h1).2
          constructor
          · intro h
            exact absurd h (by simp)
          · rintro ⟨-, -, hstep⟩
            have hmul := hstep st rfl h0
            exact absurd ((fmod_eq_zero_iff v (st : Rat) hcast).mpr hmul) hm
        · have hf : (f0 : Rat) ≤ v := not_lt.mp (not_or.mp h1).1
          have ht : v ≤ (t0 : Rat) := not_lt.mp (not_or.mp h1).2
          push_neg at hm
          constructor
          · intro _
            refine ⟨hf, ht, fun s hs hsne => ?_⟩
            injection hs with hse
            rw [← hse]
            have hstne : st ≠ 0 := by rw [hse]; exact hsne
            exact (fmod_eq_zero_iff v (st : Rat) (Int.cast_ne_zero.mpr hstne)).mp hm
          · intro _
            rfl
  · cases k with
    | numberValue q => simp [Kind.isNumber] at hk
    | nullValue n => exact ⟨_, rfl⟩
    | boolValue b => exact ⟨_, rfl⟩
    | stringValue str => exact ⟨_, rfl⟩
    | listValue vs => exact ⟨_, rfl⟩
    | structValue fs => exact ⟨_, rfl⟩

/-- C7 witness: the theorem at the rule `[1,10]` with step `2`, the
in-range multiple `4`, and the non-numeric kind `BoolValue true`. -/
theorem number_range_spec_witness :
    (apply_number_range ⟨1, 10, some 2⟩ (Value.mk (some (.numberValue 4))) "value" = .ok () ↔
      ((((1 : Int) : Rat) ≤ 4 ∧ (4 : Rat) ≤ ((10 : Int) : Rat) ∧
        ∀ s, (some (2 : Int) = some s) → s ≠ 0 → ∃ m : Int, (4 : Rat) = (m : Rat) * (s : Rat)))) ∧
    ∃ msg, apply_number_range ⟨1, 10, some 2⟩ (Value.mk (some (.boolValue true))) "value" =
      .error ⟨[.regexTypeNotAccepted msg]⟩ :=
  number_range_spec ⟨1, 10, some 2⟩ "value" 4 (.boolValue true) (by decide)

/-- A concrete regex engine on which no pattern compiles — the
behaviour of `Regex::new` on invalid patterns such as `"("`. -/
def failingRegexEngine : RegexEngine := ⟨fun _ => none⟩

/-- C5 counterexample: with an engine on which the pattern `"("` does
not compile, `apply_regex` on a stringifiable value panics (the
`.unwrap()` at `regex.rs` line 52); it does not return an
`InvalidFormat` violation report. -/
theorem apply_regex_invalid_pattern_panics :
    apply_regex failingRegexEngine ⟨"("⟩ (Value.mk (some (.stringValue "abc"))) =
      .panicked := rfl

/-- C5 (amended): for every Regex rule whose pattern does not compile
and every stringifiable input value, applying the rule panics — the
whole validation dies instead of failing with a violation report. -/
theorem apply_regex_invalid_pattern (E : RegexEngine) (rule : DataTypeRegexRuleConfig)
    (body : Value) (str : String) (k : Kind)
    (hk : body.kind = some k) (hstr : stringifyKind k = .ok str)
    (hc : E.compile rule.pattern = none) :
    apply_regex E rule body = .panicked := by
  simp only [apply_regex, hk, hstr, hc]

/-- C5 witness: the amended theorem at the failing engine, the pattern
`"("` and the boolean value `true` (stringified to `"true"`). -/
theorem apply_regex_invalid_pattern_witness :
    apply_regex failingRegexEngine ⟨"("⟩ (Value.mk (some (.boolValue true))) = .panicked :=
  apply_regex_invalid_pattern failingRegexEngine ⟨"("⟩ (Value.mk (some (.boolValue true)))
    "true" (.boolValue true) rfl rfl rfl

theorem applyRules_all_none (E : RegexEngine) (rules : List ExecutionDataTypeRule)
    (body : Value) (u : List ExecutionDataType) (h : ∀ r ∈ rules, r.config = none) :
    applyRules E rules body u = .ret [] := by
  induction rules with
  | nil => simp only [applyRules]
  | cons r rest ih =>
    have hr : r.config = none := h r (by simp)
    simp only [applyRules, hr]
    exact ih fun x hx => h x (by simp [hx])

/-- C10: every rule whose `config` field is absent is skipped by the
rule loop, so a data type consisting solely of config-less rules
validates every value as `Ok`. -/
theorem configless_rules_accept_everything (E : RegexEngine) (body : Value)
    (dt : ExecutionDataType) (u : List ExecutionDataType)
    (h : ∀ r ∈ dt.rules, r.config = none) :
    verify_data_type_rules E body dt u = .ret (.ok ()) := by
  simp only [verify_data_type_rules, applyRules_all_none E dt.rules body u h, List.isEmpty_nil,
    if_pos]

/-- A data type whose two rules both lack a configuration. -/
def configlessType : ExecutionDataType := ⟨"N", [⟨none⟩, ⟨none⟩]⟩

/-- C10 witness: the theorem at the two-config-less-rule data type and
the value `true`. -/
theorem configless_rules_accept_everything_witness :
    verify_data_type_rules failingRegexEngine (Value.mk (some (.boolValue true)))
      configlessType [] = .ret (.ok ()) :=
  configless_rules_accept_everything failingRegexEngine (Value.mk (some (.boolValue true)))
    configlessType []
    (by
      intro r hr
      simp only [configlessType, List.mem_cons, List.not_mem_nil, or_false] at hr
      rcases hr with rfl | rfl <;> rfl)

theorem number_range_err_nonempty {rule : DataTypeNumberRangeRuleConfig} {body : Value}
    {key : String} {e : DataTypeRuleError}
    (h : apply_number_range rule body key = .error e) : e.violations ≠ [] := by
  unfold apply_number_range at h
  repeat' split at h
  all_goals try (cases h; simp)
  all_goals simp_all

theorem item_of_collection_err_nonempty {rule : DataTypeItemOfCollectionRuleConfig}
    {body : Value} {key : String} {e : DataTypeRuleError}
    (h : apply_item_of_collection rule body key = .error e) : e.violations ≠ [] := by
  unfold apply_item_of_collection at h
  split at h
  all_goals try (cases h; simp)
  all_goals simp_all

theorem stringify_err_nonempty {k : Kind} {e : DataTypeRuleError}
    (h : stringifyKind k = .error e) : e.violations ≠ [] := by
  unfold stringifyKind at h
  split at h
  all_goals try (cases h; simp)
  all_goals simp_all

theorem regex_err_nonempty {E : RegexEngine} {rule : DataTypeRegexRuleConfig} {body : Value}
    {e : DataTypeRuleError} (h : apply_regex E rule body = .ret (.error e)) :
    e.violations ≠ [] := by
  unfold apply_regex at h
  repeat' split at h
  all_goals try (cases h; simp)
  all_goals try simp_all
  all_goals rename_i heq
  all_goals exact stringify_err_nonempty heq

theorem verify_err_nonempty {E : RegexEngine} {body : Value} {dt : ExecutionDataType}
    {u : List ExecutionDataType} {e : DataTypeRuleError}
    (h : verify_data_type_rules E body dt u = .ret (.error e)) : e.violations ≠ [] := by
  rw [verify_data_type_rules] at h
  cases happ : applyRules E dt.rules body u with
  | panicked => rw [happ] at h; simp at h
  | ret vs =>
    rw [happ] at h
    by_cases hv : vs.isEmpty
    · simp [hv] at h
    · simp only [hv, if_neg, Bool.false_eq_true, not_false_iff, if_false] at h
      have he : e = ⟨vs⟩ := by
        cases h
        rfl
      subst he
      simpa using hv

theorem verifyListLoop_err_nonempty {E : RegexEngine} {l : List (Option Kind)}
    {dt : ExecutionDataType} {u : List ExecutionDataType} {e : DataTypeRuleError}
    (h : verifyListLoop E l dt u = .ret (some e)) : e.violations ≠ [] := by
  induction l with
  | nil => rw [verifyListLoop] at h; simp at h
  | cons v rest ih =>
    rw [verifyListLoop] at h
    cases hv : verify_data_type_rules E v dt u with
    | panicked => rw [hv] at h; simp at h
    | ret r =>
      rw [hv] at h
      cases hl : verifyListLoop E rest dt u with
      | panicked => rw [hl] at h; simp at h
      | ret later =>
        rw [hl] at h
        cases r with
        | ok _ =>
          simp at h
          subst h
          exact ih hl
        | error e1 =>
          cases later with
          | none =>
            simp at h
            subst h
            exact verify_err_nonempty hv
          | some e2 =>
            simp at h
            subst h
            exact ih hl

theorem contains_key_err_nonempty {E : RegexEngine} {rule : DataTypeContainsKeyRuleConfig}
    {body : Value} {u : List ExecutionDataType} {e : DataTypeRuleError}
    (h : apply_contains_key E rule body u = .ret (.error e)) : e.violations ≠ [] := by
  rw [apply_contains_key] at h
  repeat' split at h
  all_goals try (cases h; simp)
  all_goals exact verify_err_nonempty h

theorem contains_type_err_nonempty {E : RegexEngine} {rule : DataTypeContainsTypeRuleConfig}
    {body : Value} {u : List ExecutionDataType} {e : DataTypeRuleError}
    (h : apply_contains_type E rule u body = .ret (.error e)) : e.violations ≠ [] := by
  rw [apply_contains_type] at h
  repeat' split at h
  all_goals try (cases h; simp)
  all_goals try simp_all
  all_goals rename_i hll
  all_goals exact verifyListLoop_err_nonempty hll

theorem applyRuleConfig_err_nonempty {E : RegexEngine} {cfg : Config} {body : Value}
    {u : List ExecutionDataType} {e : DataTypeRuleError}
    (h : applyRuleConfig E cfg body u = .ret (.error e)) : e.violations ≠ [] := by
  cases cfg with
  | numberRange c =>
    rw [applyRuleConfig] at h
    cases hnr : apply_number_range c body "value" with
    | ok _ => rw [hnr] at h; simp at h
    | error e1 =>
      rw [hnr] at h
      cases h
      exact number_range_err_nonempty hnr
  | itemOfCollection c =>
    rw [applyRuleConfig] at h
    cases hio : apply_item_of_collection c body "key" with
    | ok _ => rw [hio] at h; simp at h
    | error e1 =>
      rw [hio] at h
      cases h
      exact item_of_collection_err_nonempty hio
  | containsType c =>
    rw [applyRuleConfig] at h
    exact contains_type_err_nonempty h
  | regex c =>
    rw [applyRuleConfig] at h
    exact regex_err_nonempty h
  | containsKey c =>
    rw [applyRuleConfig] at h
    exact contains_key_err_nonempty h

/-- The number of rules of the list whose individual application to the
body fails (used to state violation completeness). -/
def countFailing (E : RegexEngine) (rules : List ExecutionDataTypeRule) (body : Value)
    (u : List ExecutionDataType) : Nat :=
  rules.countP fun rule =>
    match rule.config with
    | none => false
    | some cfg =>
      match applyRuleConfig E cfg body u with
      | .ret (.error _) => true
      | _ => false

theorem applyRules_count {E : RegexEngine} {rules : List ExecutionDataTypeRule} {body : Value}
    {u : List ExecutionDataType} {vs : List DataTypeRuleViolation}
    (h : applyRules E rules body u = .ret vs) :
    countFailing E rules body u ≤ vs.length := by
  induction rules generalizing vs with
  | nil =>
    rw [applyRules] at h
    cases h
    simp [countFailing]
  | cons r rest ih =>
    rw [applyRules] at h
    cases hc : r.config with
    | none =>
      simp only [hc] at h
      have := ih h
      simpa [countFailing, List.countP_cons, hc] using this
    | some cfg =>
      simp only [hc] at h
      cases hac : applyRuleConfig E cfg body u with
      | panicked => rw [hac] at h; simp at h
      | ret res =>
        rw [hac] at h
        cases res with
        | ok _ =>
          have := ih h
          simpa [countFailing, List.countP_cons, hc, hac] using this
        | error viol =>
          cases hrest : applyRules E rest body u with
          | panicked => rw [hrest] at h; simp at h
          | ret vs2 =>
            rw [hrest] at h
            have hvs : vs = viol.violations ++ vs2 := by
              cases h
              rfl
            have hne := applyRuleConfig_err_nonempty hac
            have hlen : 1 ≤ viol.violations.length := by
              cases hh : viol.violations with
              | nil => exact absurd hh hne
              | cons a t => simp
            have hih := ih hrest
            have hcount : countFailing E (r :: rest) body u =
                countFailing E rest body u + 1 := by
              simp [countFailing, List.countP_cons, hc, hac]
            rw [hcount, hvs, List.length_append]
            omega

/-- C8: the rule loop accumulates violations across rules instead of
short-circuiting — whenever the root validation fails, the report
carries at least one violation per failing rule (N independently
failing rules yield ≥ N violations). -/
theorem violation_completeness {E : RegexEngine} {body : Value} {dt : ExecutionDataType}
    {u : List ExecutionDataType} {err : DataTypeRuleError}
    (h : verify_data_type_rules E body dt u = .ret (.error err)) :
    countFailing E dt.rules body u ≤ err.violations.length := by
  rw [verify_data_type_rules] at h
  cases happ : applyRules E dt.rules body u with
  | panicked => rw [happ] at h; simp at h
  | ret vs =>
    rw [happ] at h
    by_cases hv : vs.isEmpty
    · simp [hv] at h
    · simp only [hv, Bool.false_eq_true, not_false_iff, if_false] at h
      have he : err = ⟨vs⟩ := by
        cases h
        rfl
      subst he
      exact applyRules_count happ

/-- A data type with a failing number-range rule and a failing
item-of-collection rule (for the value `99`). -/
def twoFailingRulesType : ExecutionDataType :=
  ⟨"T", [⟨some (.numberRange ⟨1, 10, none⟩)⟩, ⟨some (.itemOfCollection ⟨[some (.numberValue 7)]⟩)⟩]⟩

/-- C8 witness: on the value `99`, both rules of `twoFailingRulesType`
fail and the report lists both violations. -/
theorem violation_completeness_witness :
    countFailing failingRegexEngine twoFailingRulesType.rules
        (Value.mk (some (.numberValue 99))) [] ≤
      (DataTypeRuleError.mk
        [.numberInRange "value", .itemOfCollection "key"]).violations.length :=
  violation_completeness
    (by
      norm_num [verify_data_type_rules, applyRules, applyRuleConfig, apply_number_range,
        apply_item_of_collection, listContainsValue, beqV, Kind.beq, Value.kind, Value.mk,
        twoFailingRulesType, failingRegexEngine])

/-- The error (if any) of one rule-application outcome, used to state
which element's report survives `apply_contains_type`'s loop. -/
def panicsErr : Panics RuleResult → Option DataTypeRuleError
  | .ret (.error e) => some e
  | _ => none

theorem findSome?_append {α β : Type} (f : α → Option β) (l1 l2 : List α) :
    (l1 ++ l2).findSome? f =
      match l1.findSome? f with
      | some b => some b
      | none => l2.findSome? f := by
  induction l1 with
  | nil => simp
  | cons a t ih =>
    simp only [List.cons_append, List.findSome?_cons]
    cases f a <;> simp [ih]

theorem verifyListLoop_ret {E : RegexEngine} {l : List (Option Kind)}
    {dt : ExecutionDataType} {u : List ExecutionDataType} {r : Option DataTypeRuleError}
    (h : verifyListLoop E l dt u = .ret r) :
    r = l.reverse.findSome? fun v => panicsErr (verify_data_type_rules E v dt u) := by
  induction l generalizing r with
  | nil =>
    rw [verifyListLoop] at h
    cases h
    simp
  | cons v rest ih =>
    rw [verifyListLoop] at h
    cases hv : verify_data_type_rules E v dt u with
    | panicked => rw [hv] at h; simp at h
    | ret res =>
      rw [hv] at h
      cases hl : verifyListLoop E rest dt u with
      | panicked => rw [hl] at h; simp at h
      | ret later =>
        rw [hl] at h
        have hlater := ih hl
        rw [List.reverse_cons, findSome?_append, ← hlater]
        cases res with
        | ok _ =>
          simp at h
          subst h
          cases later <;> simp [List.findSome?_cons, hv, panicsErr]
        | error e =>
          cases later with
          | none =>
            simp at h
            subst h
            simp [List.findSome?_cons, hv, panicsErr]
          | some e2 =>
            simp at h
            subst h
            simp

theorem contains_type_eval_absent {E : RegexEngine} {id : String}
    {u : List ExecutionDataType} {l : List (Option Kind)}
    (hdt : get_data_type_by_id u id = none) :
    apply_contains_type E ⟨some ⟨some (.dataTypeIdentifier id)⟩⟩ u
      (Value.mk (some (.listValue l))) = .ret (.ok ()) := by
  rw [apply_contains_type.eq_1]
  show (match get_data_type_by_id u id with
        | some data_type =>
          match verifyListLoop E l data_type u with
          | Panics.panicked => Panics.panicked
          | Panics.ret none => Panics.ret (Except.ok ())
          | Panics.ret (some errors) => Panics.ret (Except.error errors)
        | none => Panics.ret (Except.ok ())) = Panics.ret (Except.ok ())
  rw [hdt]

theorem contains_type_eval {E : RegexEngine} {id : String}
    {u : List ExecutionDataType} {dt : ExecutionDataType} {l : List (Option Kind)}
    (hdt : get_data_type_by_id u id = some dt) :
    apply_contains_type E ⟨some ⟨some (.dataTypeIdentifier id)⟩⟩ u
        (Value.mk (some (.listValue l))) =
      match verifyListLoop E l dt u with
      | .panicked => .panicked
      | .ret none => .ret (.ok ())
      | .ret (some errors) => .ret (.error errors) := by
  rw [apply_contains_type.eq_1]
  show (match get_data_type_by_id u id with
        | some data_type =>
          match verifyListLoop E l data_type u with
          | Panics.panicked => Panics.panicked
          | Panics.ret none => Panics.ret (Except.ok ())
          | Panics.ret (some errors) => Panics.ret (Except.error errors)
        | none => Panics.ret (Except.ok ())) = _
  rw [hdt]

/-- The ContainsType rule configuration referencing the concrete
data-type identifier `"T"`. -/
def containsTypeT : DataTypeContainsTypeRuleConfig :=
  ⟨some ⟨some (.dataTypeIdentifier "T")⟩⟩

/-- A data type `"T"` with a single number-range rule `[1, 10]`. -/
def rangeOnlyType : ExecutionDataType := ⟨"T", [⟨some (.numberRange ⟨1, 10, none⟩)⟩]⟩

/-- C4 counterexample, two parts.  First: when the referenced type
`"T"` is absent from the universe, the rule returns `Ok` — it does not
emit a `MissingDataType` violation.  Second: on a list whose two
elements both fail the referenced type's rules, the rule's report is
the last element's single-violation sub-report, not the union of both
sub-reports. -/
theorem contains_type_not_as_specified :
    apply_contains_type failingRegexEngine containsTypeT []
        (Value.mk (some (.listValue [Value.mk (some (.boolValue true))]))) = .ret (.ok ()) ∧
      apply_contains_type failingRegexEngine containsTypeT [rangeOnlyType]
        (Value.mk (some (.listValue
          [Value.mk (some (.numberValue 99)), Value.mk (some (.numberValue 88))]))) =
        .ret (.error ⟨[.numberInRange "value"]⟩) := by
  constructor
  · exact contains_type_eval_absent rfl
  · have hll : verifyListLoop failingRegexEngine
        [Value.mk (some (.numberValue 99)), Value.mk (some (.numberValue 88))] rangeOnlyType
        [rangeOnlyType] = .ret (some ⟨[.numberInRange "value"]⟩) := by
      norm_num [verifyListLoop, verify_data_type_rules, applyRules, applyRuleConfig,
        apply_number_range, Value.kind, Value.mk, rangeOnlyType, failingRegexEngine]
    have hres := contains_type_eval (E := failingRegexEngine) (l :=
      [Value.mk (some (.numberValue 99)), Value.mk (some (.numberValue 88))])
      (show get_data_type_by_id [rangeOnlyType] "T" = some rangeOnlyType from rfl)
    rw [hll] at hres
    exact hres

/-- C4 (amended): for a ContainsType rule with a concrete referenced
identifier — a non-list value (or one with no kind) yields an
`InvalidFormat` violation; a list whose referenced type is absent from
the universe yields `Ok` (the rule is silently skipped); and with the
referenced type present the rule returns `Ok` when every element
passes, otherwise the sub-report of the last failing element. -/
theorem contains_type_spec (E : RegexEngine) (identifier : String)
    (u : List ExecutionDataType) (body : Value) :
    ((∀ l, body.kind ≠ some (.listValue l)) →
      apply_contains_type E ⟨some ⟨some (.dataTypeIdentifier identifier)⟩⟩ u body =
        .ret (.error ⟨[.invalidFormat identifier "other"]⟩)) ∧
    (∀ l, body.kind = some (.listValue l) →
      (get_data_type_by_id u identifier = none →
        apply_contains_type E ⟨some ⟨some (.dataTypeIdentifier identifier)⟩⟩ u body =
          .ret (.ok ())) ∧
      (∀ dt, get_data_type_by_id u identifier = some dt →
        ∀ r, apply_contains_type E ⟨some ⟨some (.dataTypeIdentifier identifier)⟩⟩ u body =
            .ret r →
          r = match l.reverse.findSome?
                (fun v => panicsErr (verify_data_type_rules E v dt u)) with
              | none => Except.ok ()
              | some e => Except.error e)) := by
  constructor
  · intro hnl
    rcases hbk : body.kind with _ | k
    · have hb2 : body = Value.mk none := hbk
      subst hb2
      rw [apply_contains_type.eq_1]
      rfl
    · have hb2 : body = Value.mk (some k) := hbk
      subst hb2
      cases k with
      | listValue l => exact absurd rfl (hnl l)
      | nullValue n => rw [apply_contains_type.eq_1]; rfl
      | boolValue b => rw [apply_contains_type.eq_1]; rfl
      | numberValue q => rw [apply_contains_type.eq_1]; rfl
      | stringValue str => rw [apply_contains_type.eq_1]; rfl
      | structValue fs => rw [apply_contains_type.eq_1]; rfl
  · intro l hb
    have hb2 : body = Value.mk (some (.listValue l)) := hb
    subst hb2
    constructor
    · intro hnone
      exact contains_type_eval_absent hnone
    · intro dt hdt r hr
      rw [contains_type_eval hdt] at hr
      cases hll : verifyListLoop E l dt u with
      | panicked => rw [hll] at hr; simp at hr
      | ret later =>
        rw [hll] at hr
        have hlater := verifyListLoop_ret hll
        rw [← hlater]
        cases later with
        | none =>
          simp at hr
          exact hr.symm
        | some e =>
          simp at hr
          exact hr.symm

/-- C4 witness: the amended theorem applied to an empty list with the
referenced type absent, yielding `Ok`. -/
theorem contains_type_spec_witness :
    apply_contains_type failingRegexEngine ⟨some ⟨some (.dataTypeIdentifier "T")⟩⟩ []
      (Value.mk (some (.listValue []))) = .ret (.ok ()) :=
  ((contains_type_spec failingRegexEngine "T" [] (Value.mk (some (.listValue [])))).2 []
    rfl).1 rfl

end Draco
